import Mathlib

/-!
Shallow embedding of the country-comparison data pipeline
(normalizeValue, formatNumber, extractValue, processComparisonData,
calculateDifference from script.js v2.4, plus the v1.x extractValue that
matches on the Indicator field and returns the selected field unchanged).

JavaScript numbers are modelled as rationals (ℚ); the dynamic values that
flow through the pipeline are modelled by `JSVal`:
`undef` is JavaScript `undefined`, `null` is `null`, `str` a string and
`num` a finite number.  A raw API record keeps only the fields the code
reads; a missing field is `JSVal.undef`.  A record list entry may be
`none`, modelling a `null` element; a whole input may be `none`,
modelling a non-array value.
-/

inductive JSVal where
  | num (q : ℚ)
  | str (s : String)
  | null
  | undef
deriving DecidableEq, Repr

/-- One raw indicator record, restricted to the fields the code reads.
`Category` is the field the v2.4 `extractValue` matches on, `Indicator`
the one the v1.x revision matches on; `none` models a missing or
non-string field (strict `===` against a string then fails). -/
structure RawRecord where
  Category : Option String
  Indicator : Option String
  LatestValue : JSVal
  LastValue : JSVal
  Value : JSVal
deriving DecidableEq, Repr

/-- `normalizeValue` (script.js v2.4, lines 98–135) on a number:
heuristic rescale of GDP and Population values by range band;
Inflation Rate and unrecognised indicators pass through. -/
def normalizeValue (value : ℚ) (indicatorName : String) : ℚ :=
  if indicatorName = "GDP" then
    if value > 1/10 ∧ value < 1000 then value * 1000000000000
    else if value ≥ 1000 ∧ value < 1000000 then value * 1000000000
    else value
  else if indicatorName = "Population" then
    if value > 1/10 ∧ value < 1000 then value * 1000000
    else if value ≥ 1000 ∧ value < 1000000 then value * 1000
    else value
  else value

/-- The `typeof value === 'number'` guard around `normalizeValue` in
`extractValue` (v2.4): only numbers are rescaled. -/
def normalizeJS (v : JSVal) (indicatorName : String) : JSVal :=
  match v with
  | .num q => .num (normalizeValue q indicatorName)
  | x => x

/-- Two-digit zero padding of a remainder below 100. -/
def pad2 (n : Nat) : String :=
  if n < 10 then "0" ++ toString n else toString n

/-- Print `n` hundredths as a fixed two-decimal string. -/
def fixed2 (n : Nat) : String :=
  toString (n / 100) ++ "." ++ pad2 (n % 100)

/-- JavaScript `x.toFixed(2)`: a negative argument is negated and the
sign prepended; the magnitude is rounded to the nearest hundredth,
ties towards the larger value (Mathlib `round` is `⌊x + 1/2⌋`). -/
def toFixed2 (q : ℚ) : String :=
  if q < 0 then "-" ++ fixed2 (round (-q * 100)).toNat
  else fixed2 (round (q * 100)).toNat

/-- Comma-group a reversed digit list in blocks of three; the fuel
argument (any bound on the number of blocks, the list length is enough)
keeps the recursion structural. -/
def groupRevAux : Nat → List Char → List Char
  | 0, l => l
  | fuel + 1, l =>
    if l.length ≤ 3 then l
    else l.take 3 ++ ',' :: groupRevAux fuel (l.drop 3)

/-- Comma-group a reversed digit list in blocks of three. -/
def groupRev (l : List Char) : List Char :=
  groupRevAux l.length l

/-- Decimal digits of `n` with thousands separators. -/
def withSeparators (n : Nat) : String :=
  String.mk ((groupRev (toString n).data.reverse).reverse)

/-- `x.toLocaleString(undefined, {minimumFractionDigits: 2,
maximumFractionDigits: 2})` in an en-US display locale: two decimal
digits and comma thousands separators. -/
def toLocaleString2 (q : ℚ) : String :=
  if q < 0 then
    "-" ++ withSeparators ((round (-q * 100)).toNat / 100) ++ "." ++
      pad2 ((round (-q * 100)).toNat % 100)
  else
    withSeparators ((round (q * 100)).toNat / 100) ++ "." ++
      pad2 ((round (q * 100)).toNat % 100)

/-- `formatNumber` (script.js v2.4, lines 150–197): "N/A"/null/undefined
render as "N/A", other non-numbers via `String(value)`; the
`"percentage"` kind is `toFixed(2) + '%'` with no rescale; otherwise a
magnitude suffix is chosen by strict absolute-value thresholds, largest
first, and the small-value fallback uses locale formatting. -/
def formatNumber (value : JSVal) (type : String) : String :=
  match value with
  | .str s => if s = "N/A" then "N/A" else s
  | .null => "N/A"
  | .undef => "N/A"
  | .num q =>
    if type = "percentage" then toFixed2 q ++ "%"
    else if |q| > 1000000000000 then toFixed2 (q / 1000000000000) ++ " T"
    else if |q| > 1000000000 then toFixed2 (q / 1000000000) ++ " B"
    else if |q| > 1000000 then toFixed2 (q / 1000000) ++ " M"
    else if |q| > 1000 then toFixed2 (q / 1000) ++ " K"
    else toLocaleString2 q

/-- `data.find(d => d && d.Category === indicatorName)`: first non-null
record whose `Category` field strictly equals the name. -/
def findCategory (indicatorName : String) :
    List (Option RawRecord) → Option RawRecord
  | [] => none
  | none :: rest => findCategory indicatorName rest
  | some r :: rest =>
    if r.Category = some indicatorName then some r
    else findCategory indicatorName rest

/-- `data.find(d => d && d.Indicator === indicatorName)` from the v1.x
revision: same search keyed on the `Indicator` field. -/
def findIndicator (indicatorName : String) :
    List (Option RawRecord) → Option RawRecord
  | [] => none
  | none :: rest => findIndicator indicatorName rest
  | some r :: rest =>
    if r.Indicator = some indicatorName then some r
    else findIndicator indicatorName rest

/-- The value-field priority chain shared by both revisions: the first
of `LatestValue`, `LastValue`, `Value` that is neither `undefined` nor
`null`, else the string "N/A". -/
def selectField (r : RawRecord) : JSVal :=
  if r.LatestValue ≠ JSVal.undef ∧ r.LatestValue ≠ JSVal.null then r.LatestValue
  else if r.LastValue ≠ JSVal.undef ∧ r.LastValue ≠ JSVal.null then r.LastValue
  else if r.Value ≠ JSVal.undef ∧ r.Value ≠ JSVal.null then r.Value
  else .str "N/A"

/-- `extractValue` (script.js v2.4, lines 510–543): guard non-array and
empty inputs, find the first `Category` match, select the value field by
priority, and normalize it when it is a number. -/
def extractValue (data : Option (List (Option RawRecord)))
    (indicatorName : String) : JSVal :=
  match data with
  | none => .str "N/A"
  | some [] => .str "N/A"
  | some l =>
    match findCategory indicatorName l with
    | none => .str "N/A"
    | some item => normalizeJS (selectField item) indicatorName

/-- `extractValue` from the v1.x revision (country-comparison/script.js,
lines 599–627): same guards, match on `Indicator`, and the selected
field is returned exactly, with no normalization step. -/
def extractValueV1 (data : Option (List (Option RawRecord)))
    (indicatorName : String) : JSVal :=
  match data with
  | none => .str "N/A"
  | some [] => .str "N/A"
  | some l =>
    match findIndicator indicatorName l with
    | none => .str "N/A"
    | some item => selectField item

/-- The three tracked indicators, with the literal category labels and
format kinds that `processComparisonData` (v2.4) uses. -/
inductive IndicatorKind where
  | GDP
  | Population
  | InflationRate
deriving DecidableEq, Repr

def IndicatorKind.label : IndicatorKind → String
  | .GDP => "GDP"
  | .Population => "Population"
  | .InflationRate => "Inflation Rate"

def IndicatorKind.fmtKind : IndicatorKind → String
  | .GDP => "number"
  | .Population => "number"
  | .InflationRate => "percentage"

/-- One comparison row as built by `processComparisonData` (v2.4). -/
structure IndicatorRow where
  name : String
  country1 : JSVal
  country2 : JSVal
  format : String
  description : String
deriving DecidableEq, Repr

/-- `processComparisonData` (script.js v2.4, lines 498–574): the literal
three-row list GDP, Population, Inflation Rate. -/
def processComparisonData (data1 data2 : Option (List (Option RawRecord))) :
    List IndicatorRow :=
  [ { name := "GDP"
      country1 := extractValue data1 "GDP"
      country2 := extractValue data2 "GDP"
      format := "number"
      description := "Gross Domestic Product" },
    { name := "Population"
      country1 := extractValue data1 "Population"
      country2 := extractValue data2 "Population"
      format := "number"
      description := "Total population" },
    { name := "Inflation Rate"
      country1 := extractValue data1 "Inflation Rate"
      country2 := extractValue data2 "Inflation Rate"
      format := "percentage"
      description := "Annual change in consumer prices" } ]

/-- The difference cell produced by `calculateDifference` (v2.4):
`cls` is the CSS class encoding the direction tag ("positive-diff" for
higher, "negative-diff" for lower, "" for equal or unavailable), and
`value` is `none` for the JavaScript `null` placed there when either
side is unavailable. -/
structure Difference where
  text : String
  cls : String
  value : Option ℚ
deriving DecidableEq, Repr

/-- `calculateDifference` (script.js v2.4, lines 603–639): any
non-number on either side (the string "N/A" included) yields the N/A
cell; otherwise the signed difference is formatted, with "+" prepended
exactly when it is positive. -/
def calculateDifference (val1 val2 : JSVal) (formatType : String) :
    Difference :=
  match val1, val2 with
  | .num a, .num b =>
    let diff := a - b
    { text :=
        if diff > 0 then "+" ++ formatNumber (.num diff) formatType
        else if diff < 0 then formatNumber (.num diff) formatType
        else formatNumber (.num 0) formatType
      cls :=
        if diff > 0 then "positive-diff"
        else if diff < 0 then "negative-diff"
        else ""
      value := some diff }
  | _, _ => { text := "N/A", cls := "", value := none }

/-! ## Helper lemmas -/

/-- `normalizeValue` on the literal GDP label, with the string
comparisons discharged. -/
lemma normalizeValue_gdp (w : ℚ) :
    normalizeValue w "GDP" =
      if w > 1/10 ∧ w < 1000 then w * 1000000000000
      else if w ≥ 1000 ∧ w < 1000000 then w * 1000000000
      else w := by
  simp [normalizeValue]

/-- A present (neither undefined nor null) `LatestValue` wins the
field-priority chain. -/
lemma selectField_latest (r : RawRecord) (h1 : r.LatestValue ≠ JSVal.undef)
    (h2 : r.LatestValue ≠ JSVal.null) : selectField r = r.LatestValue := by
  rw [selectField, if_pos ⟨h1, h2⟩]

/-- When the `Category` search succeeds, `extractValue` returns the
normalized selected field of the found record. -/
lemma extractValue_eq_of_findCategory {name : String}
    {l : List (Option RawRecord)} {r : RawRecord}
    (h : findCategory name l = some r) :
    extractValue (some l) name = normalizeJS (selectField r) name := by
  match l with
  | [] => simp [findCategory] at h
  | x :: xs => simp [extractValue, h]

/-- When the `Indicator` search succeeds, the v1 `extractValue` returns
the selected field of the found record unchanged. -/
lemma extractValueV1_eq_of_findIndicator {name : String}
    {l : List (Option RawRecord)} {r : RawRecord}
    (h : findIndicator name l = some r) :
    extractValueV1 (some l) name = selectField r := by
  match l with
  | [] => simp [findIndicator] at h
  | x :: xs => simp [extractValueV1, h]

/-- The search skips `null` entries, so a list of only `null` entries
has no match. -/
lemma findCategory_of_all_none (name : String) :
    ∀ l : List (Option RawRecord), (∀ x ∈ l, x = none) →
      findCategory name l = none := by
  intro l h
  induction l with
  | nil => rfl
  | cons x xs ih =>
    have hx : x = none := h x (List.mem_cons_self x xs)
    subst hx
    exact ih fun y hy => h y (List.mem_cons_of_mem none hy)

/-- `normalizeValue` fixes 0 for every indicator label. -/
lemma normalizeValue_zero (name : String) : normalizeValue 0 name = 0 := by
  unfold normalizeValue
  split_ifs with h1 h2 h3 h4 h5 <;> first | rfl | norm_num at *

/-! ## Claim theorems -/

/-- C1 counterexample: 1852.72 does not satisfy the trillions-band guard
`0.1 < v < 1000` of `normalizeValue`, and the function's output is the
billions rescale `1852.72 × 10^9`, not the trillions rescale
`1852.72 × 10^12` the claim's mechanism would produce. -/
theorem gdp_1852_72_not_trillions_band :
    ¬ ((1852.72 : ℚ) > 1/10 ∧ (1852.72 : ℚ) < 1000) ∧
    normalizeValue 1852.72 "GDP" = 1852.72 * 1000000000 ∧
    normalizeValue 1852.72 "GDP" ≠ 1852.72 * 1000000000000 := by
  refine ⟨by norm_num, by norm_num [normalizeValue], by norm_num [normalizeValue]⟩

/-- C1 (amended): `normalizeValue 1852.72 "GDP"` rescales through the
billions heuristic band (`1000 ≤ v < 10^6`) to the canonical value
`1.85272 × 10^12`, and `formatNumber` with the magnitude ("number") kind
renders that canonical value as "1.85 T". -/
theorem gdp_roundtrip_1852_72 :
    normalizeValue 1852.72 "GDP" = 1852720000000 ∧
    formatNumber (.num (normalizeValue 1852.72 "GDP")) "number" = "1.85 T" := by
  constructor
  · norm_num [normalizeValue]
  · norm_num [normalizeValue, formatNumber, toFixed2, round_eq]
    rfl

/-- C2 counterexample: a record list whose single record matches
category "GDP" and carries `LatestValue = 1852.72` (with `LastValue`
and `Value` present and different) makes `extractValue` return the
normalized value `1.85272 × 10^12`, not the `LatestValue` 1852.72
exactly as the claim states. -/
theorem extract_latest_not_exact :
    extractValue
        (some [some ⟨some "GDP", some "GDP", .num 1852.72, .num 1, .num 2⟩])
        "GDP" ≠ JSVal.num 1852.72 ∧
    extractValue
        (some [some ⟨some "GDP", some "GDP", .num 1852.72, .num 1, .num 2⟩])
        "GDP" = JSVal.num 1852720000000 := by
  constructor <;>
    simp [extractValue, findCategory, selectField, normalizeJS] <;>
    norm_num [normalizeValue]

/-- C2 (amended): when the first `Category` match of the list has a
present (neither undefined nor null) `LatestValue`, the v2.4
`extractValue` returns that `LatestValue` after unit normalization
(`normalizeJS`), ignoring `LastValue` and `Value` even when present and
different; the v1 `extractValue` (match on `Indicator`) returns the
`LatestValue` exactly. -/
theorem extract_latest_priority :
    (∀ (l : List (Option RawRecord)) (name : String) (r : RawRecord),
      findCategory name l = some r →
      r.LatestValue ≠ JSVal.undef → r.LatestValue ≠ JSVal.null →
      extractValue (some l) name = normalizeJS r.LatestValue name) ∧
    (∀ (l : List (Option RawRecord)) (name : String) (r : RawRecord),
      findIndicator name l = some r →
      r.LatestValue ≠ JSVal.undef → r.LatestValue ≠ JSVal.null →
      extractValueV1 (some l) name = r.LatestValue) := by
  constructor
  · intro l name r hf h1 h2
    rw [extractValue_eq_of_findCategory hf, selectField_latest r h1 h2]
  · intro l name r hf h1 h2
    rw [extractValueV1_eq_of_findIndicator hf, selectField_latest r h1 h2]

/-- Witness for C2's amended theorem at a concrete single-record list. -/
theorem extract_latest_priority_witness :
    extractValue (some [some ⟨some "GDP", some "GDP", .num 5, .num 1, .num 2⟩])
      "GDP" = normalizeJS (.num 5) "GDP" ∧
    extractValueV1 (some [some ⟨some "GDP", some "GDP", .num 5, .num 1, .num 2⟩])
      "GDP" = JSVal.num 5 := by
  constructor
  · exact extract_latest_priority.1
      [some ⟨some "GDP", some "GDP", .num 5, .num 1, .num 2⟩] "GDP"
      ⟨some "GDP", some "GDP", .num 5, .num 1, .num 2⟩
      (by simp [findCategory]) (by simp) (by simp)
  · exact extract_latest_priority.2
      [some ⟨some "GDP", some "GDP", .num 5, .num 1, .num 2⟩] "GDP"
      ⟨some "GDP", some "GDP", .num 5, .num 1, .num 2⟩
      (by simp [findIndicator]) (by simp) (by simp)

/-- C3: the pipeline never rescales inflation-rate values
(`normalizeValue` is the identity on the "Inflation Rate" label), and
the percentage format kind renders 3.79 as "3.79%": two decimal digits,
a trailing "%", and no multiplication by 100. -/
theorem inflation_no_rescale :
    (∀ q : ℚ, normalizeValue q "Inflation Rate" = q) ∧
    formatNumber (.num 3.79) "percentage" = "3.79%" := by
  constructor
  · intro q; simp [normalizeValue]
  · norm_num [formatNumber, toFixed2, round_eq]
    rfl

/-- C4: for every pair of inputs, `processComparisonData` yields exactly
three rows, in the fixed order GDP, Population, Inflation Rate (with the
fixed format kinds number, number, percentage). -/
theorem process_three_rows_fixed_order
    (data1 data2 : Option (List (Option RawRecord))) :
    (processComparisonData data1 data2).length = 3 ∧
    (processComparisonData data1 data2).map IndicatorRow.name =
      ["GDP", "Population", "Inflation Rate"] ∧
    (processComparisonData data1 data2).map IndicatorRow.format =
      ["number", "number", "percentage"] := by
  refine ⟨rfl, rfl, rfl⟩

/-- C5: at the band boundary, `normalizeValue 1000 "GDP"` does not
satisfy the exclusive trillions guard `v < 1000`, does satisfy the
inclusive billions guard `1000 ≤ v`, and returns `1000 × 10^9 = 10^12`. -/
theorem gdp_boundary_1000_billions :
    ¬ ((1000 : ℚ) > 1/10 ∧ (1000 : ℚ) < 1000) ∧
    ((1000 : ℚ) ≥ 1000 ∧ (1000 : ℚ) < 1000000) ∧
    normalizeValue 1000 "GDP" = 1000 * 1000000000 ∧
    normalizeValue 1000 "GDP" = 1000000000000 := by
  refine ⟨by norm_num, by norm_num, by norm_num [normalizeValue],
    by norm_num [normalizeValue]⟩

/-- C6: when either side is the unavailable sentinel (the string
"N/A"), `calculateDifference` returns the cell with text "N/A", the
empty direction class and a null difference value, for every other
operand and every format kind. -/
theorem compare_unavailable_na (v : JSVal) (t : String) :
    calculateDifference (.str "N/A") v t =
      { text := "N/A", cls := "", value := none } ∧
    calculateDifference v (.str "N/A") t =
      { text := "N/A", cls := "", value := none } := by
  cases v <;> simp [calculateDifference]

/-- C7: for available numeric sides, a positive difference yields the
"positive-diff" (higher) direction with the formatter's rendering of
the difference prefixed by "+", and a negative difference yields the
"negative-diff" direction with the formatter's rendering unprefixed
(its natural minus sign only). -/
theorem compare_sign_policy (a b : ℚ) (t : String) :
    (a - b > 0 →
      calculateDifference (.num a) (.num b) t =
        { text := "+" ++ formatNumber (.num (a - b)) t
          cls := "positive-diff", value := some (a - b) }) ∧
    (a - b < 0 →
      calculateDifference (.num a) (.num b) t =
        { text := formatNumber (.num (a - b)) t
          cls := "negative-diff", value := some (a - b) }) := by
  constructor
  · intro h
    simp [calculateDifference, h]
  · intro h
    simp [calculateDifference, h, lt_asymm h]

/-- Witness for C7 at the spec's example: the normalized GDP values of
1852.72 and 1200 (1.85272 × 10^12 and 1.2 × 10^12), in both orders. -/
theorem compare_sign_policy_witness :
    calculateDifference (.num 1852720000000) (.num 1200000000000) "number" =
      { text := "+" ++
          formatNumber (.num ((1852720000000 : ℚ) - 1200000000000)) "number"
        cls := "positive-diff"
        value := some ((1852720000000 : ℚ) - 1200000000000) } ∧
    calculateDifference (.num 1200000000000) (.num 1852720000000) "number" =
      { text := formatNumber (.num ((1200000000000 : ℚ) - 1852720000000)) "number"
        cls := "negative-diff"
        value := some ((1200000000000 : ℚ) - 1852720000000) } := by
  exact ⟨(compare_sign_policy 1852720000000 1200000000000 "number").1 (by norm_num),
    (compare_sign_policy 1200000000000 1852720000000 "number").2 (by norm_num)⟩

/-- C8: for every indicator kind, `extractValue` maps a non-list input,
the empty list, and any list made only of null entries to the
unavailable sentinel "N/A" instead of failing. -/
theorem extract_malformed_unavailable (k : IndicatorKind) :
    extractValue none k.label = .str "N/A" ∧
    extractValue (some []) k.label = .str "N/A" ∧
    ∀ l : List (Option RawRecord), (∀ x ∈ l, x = none) →
      extractValue (some l) k.label = .str "N/A" := by
  refine ⟨rfl, rfl, ?_⟩
  intro l h
  match l with
  | [] => rfl
  | x :: xs =>
    simp [extractValue, findCategory_of_all_none k.label (x :: xs) h]

/-- Witness for C8 at the GDP kind and a two-null-entry list. -/
theorem extract_malformed_unavailable_witness :
    extractValue (some [none, none]) IndicatorKind.GDP.label = .str "N/A" := by
  exact (extract_malformed_unavailable IndicatorKind.GDP).2.2 [none, none]
    (by simp)

/-- C9: a matched record whose `LatestValue` is exactly 0 makes
`extractValue` return the number 0, not the unavailable sentinel: the
presence checks test only undefined and null, never falsiness, and
normalization fixes 0. -/
theorem extract_zero_is_zero (k : IndicatorKind)
    (l : List (Option RawRecord)) (r : RawRecord)
    (hf : findCategory k.label l = some r)
    (h0 : r.LatestValue = JSVal.num 0) :
    extractValue (some l) k.label = JSVal.num 0 ∧
    extractValue (some l) k.label ≠ JSVal.str "N/A" := by
  have hsel : selectField r = JSVal.num 0 := by
    rw [selectField_latest r (by simp [h0]) (by simp [h0]), h0]
  have : extractValue (some l) k.label = JSVal.num 0 := by
    rw [extractValue_eq_of_findCategory hf, hsel]
    simp [normalizeJS, normalizeValue_zero]
  exact ⟨this, by rw [this]; simp⟩

/-- Witness for C9 at a concrete GDP record with zero `LatestValue` and
a different, present `LastValue`. -/
theorem extract_zero_is_zero_witness :
    extractValue (some [some ⟨some "GDP", none, .num 0, .num 7, .undef⟩])
      IndicatorKind.GDP.label = JSVal.num 0 := by
  exact (extract_zero_is_zero IndicatorKind.GDP
    [some ⟨some "GDP", none, .num 0, .num 7, .undef⟩]
    ⟨some "GDP", none, .num 0, .num 7, .undef⟩
    (by simp [IndicatorKind.label, findCategory]) rfl).1

/-- C10: GDP normalization is idempotent: any value rescaled by either
heuristic band lands above 10^11, hence outside both bands, so a second
pass is the identity; values outside both bands are unchanged anyway. -/
theorem gdp_normalize_idempotent (v : ℚ) :
    normalizeValue (normalizeValue v "GDP") "GDP" = normalizeValue v "GDP" := by
  rw [normalizeValue_gdp v]
  split_ifs with h1 h2
  · rw [normalizeValue_gdp]
    have n1 : ¬ (v * 1000000000000 > 1/10 ∧ v * 1000000000000 < 1000) := by
      rintro ⟨-, hb⟩; linarith [h1.1]
    have n2 : ¬ (v * 1000000000000 ≥ 1000 ∧ v * 1000000000000 < 1000000) := by
      rintro ⟨-, hb⟩; linarith [h1.1]
    rw [if_neg n1, if_neg n2]
  · rw [normalizeValue_gdp]
    have n1 : ¬ (v * 1000000000 > 1/10 ∧ v * 1000000000 < 1000) := by
      rintro ⟨-, hb⟩; linarith [h2.1]
    have n2 : ¬ (v * 1000000000 ≥ 1000 ∧ v * 1000000000 < 1000000) := by
      rintro ⟨-, hb⟩; linarith [h2.1]
    rw [if_neg n1, if_neg n2]
  · rw [normalizeValue_gdp, if_neg h1, if_neg h2]
